import Mathlib

/-!
Shallow embedding of the MRColorR/get-grass automation scripts
(src/grass-desktop_main.py, src/grass_main.py, src/grass-node_main.py).
External effects — subprocess spawns, xdotool invocations, filesystem
checks, network fetches — are modelled as oracle functions carried in
environment records; each Python function mentioned by the claims is
translated into a Lean function over those oracles, preserving the
source's control flow.  Counters index successive oracle consultations so
that runs are deterministic functions of their environment.
-/

/-- Python exception values the embedded code can raise. -/
inductive PyErr where
  | keyError (key : String)
  | typeError
  | fileNotFoundError
  | calledProcessError
  deriving DecidableEq, Repr

/-- JSON values as produced by `json.loads`; numbers are restricted to the
integers, which is all the manifest handling touches. -/
inductive Json where
  | null
  | bool (b : Bool)
  | num (n : Int)
  | str (s : String)
  | arr (elems : List Json)
  | obj (fields : List (String × Json))

/-- Python dict subscription `j[k]`: `KeyError(k)` when the key is missing
from a dict, `TypeError` when subscripting a non-dict with a string key. -/
def Json.getItem : Json → String → Except PyErr Json
  | .obj fields, k =>
    match fields.lookup k with
    | some v => Except.ok v
    | none => Except.error (PyErr.keyError k)
  | _, _ => Except.error PyErr.typeError

/-- Embedding of grass_main.py lines 147–149 (identical to
grass-node_main.py lines 46–48): `data = response_json['result']['data']`,
`version = data['version']`, `linux_download_url = data['links']['linux']`.
Each access either yields the stored value or raises `KeyError` for exactly
the first missing key, in source order. -/
def extract_download_info (responseJson : Json) : Except PyErr (Json × Json) :=
  match responseJson.getItem "result" with
  | .error e => .error e
  | .ok result =>
    match result.getItem "data" with
    | .error e => .error e
    | .ok data =>
      match data.getItem "version" with
      | .error e => .error e
      | .ok version =>
        match data.getItem "links" with
        | .error e => .error e
        | .ok links =>
          match links.getItem "linux" with
          | .error e => .error e
          | .ok linuxUrl => .ok (version, linuxUrl)

/-- A fully valid manifest, used to instantiate the validation theorem. -/
def fullManifest : Json :=
  Json.obj [("result", Json.obj [("data", Json.obj
    [("version", Json.str "5.2.0"),
     ("links", Json.obj [("linux", Json.str "https://example.com/ext.zip"),
                         ("windows", Json.str "https://example.com/ext.exe")])])])]

/-- An otherwise-valid manifest with the top-level `result` key missing. -/
def manifestNoResult : Json := Json.obj [("status", Json.str "ok")]

/-- An otherwise-valid manifest with `result.data` missing. -/
def manifestNoData : Json := Json.obj [("result", Json.obj [("meta", Json.str "x")])]

/-- An otherwise-valid manifest with `data.version` missing. -/
def manifestNoVersion : Json :=
  Json.obj [("result", Json.obj [("data", Json.obj
    [("links", Json.obj [("linux", Json.str "https://example.com/ext.zip")])])])]

/-- An otherwise-valid manifest with the `linux` platform link missing. -/
def manifestNoLinux : Json :=
  Json.obj [("result", Json.obj [("data", Json.obj
    [("version", Json.str "5.2.0"),
     ("links", Json.obj [("windows", Json.str "https://example.com/ext.exe")])])])]

/-- Relative-path `os.path.join` as the scripts use it. -/
def pjoin (a b : String) : String := if a == "" then b else a ++ "/" ++ b

/-- Python `s.endswith(suffix)`, computed over the character lists. -/
def strEndsWith (s suffix : String) : Bool := suffix.data.isSuffixOf s.data

/-- Python `file.endswith('.crx')`. -/
def isCrxFile (file : String) : Bool := strEndsWith file ".crx"

/-- grass_main.py lines 180–187: iterate over the `os.walk` output (the
list of (directory path, file names) pairs in top-down depth-first order)
and `return` the joined path of the first file ending in `.crx`; `none`
models falling through to the `raise FileNotFoundError` line. -/
def find_crx_grass_main : List (String × List String) → Option String
  | [] => none
  | (root, files) :: rest =>
    match files.find? isCrxFile with
    | some file => some (pjoin root file)
    | none => find_crx_grass_main rest

/-- grass-node_main.py lines 63–68: the same scan, except that the `break`
leaves only the inner loop, so every directory containing a match
overwrites `crx_file_path` with its own first match and the walk
continues. -/
def find_crx_grass_node_aux : Option String → List (String × List String) → Option String
  | acc, [] => acc
  | acc, (root, files) :: rest =>
    match files.find? isCrxFile with
    | some file => find_crx_grass_node_aux (some (pjoin root file)) rest
    | none => find_crx_grass_node_aux acc rest

/-- grass-node_main.py lines 63–71: the scan starting from
`crx_file_path = None`. -/
def find_crx_grass_node (entries : List (String × List String)) : Option String :=
  find_crx_grass_node_aux none entries

/-- Both scripts raise `FileNotFoundError('CRX file not found in the
extracted folder.')` when the scan left nothing. -/
def crxResultOf (found : Option String) : Except PyErr String :=
  match found with
  | some path => Except.ok path
  | none => Except.error PyErr.fileNotFoundError

/-- grass_main.py lines 180–187 including the `raise`. -/
def locate_crx_grass_main (entries : List (String × List String)) : Except PyErr String :=
  crxResultOf (find_crx_grass_main entries)

/-- grass-node_main.py lines 63–71 including the `raise`. -/
def locate_crx_grass_node (entries : List (String × List String)) : Except PyErr String :=
  crxResultOf (find_crx_grass_node entries)

/-- Specification value: the first `.crx` file in walk order. -/
def firstCrxSpec (entries : List (String × List String)) : Option String :=
  (entries.foldr (fun e acc => (e.2.filter isCrxFile).map (pjoin e.1) ++ acc) []).head?

/-- Left-biased choice on options (Python-style `x if x is not None else y`). -/
def optOr {α : Type} : Option α → Option α → Option α
  | some a, _ => some a
  | none, y => y

/-- Specification value: of the per-directory first `.crx` matches, the one
from the last directory (in walk order) that has any. -/
def lastDirCrxSpec (entries : List (String × List String)) : Option String :=
  (entries.filterMap (fun e => (e.2.find? isCrxFile).map (pjoin e.1))).getLast?

/-- A walk of an extracted archive whose `.crx` files live in two different
directories. -/
def twoDirWalk : List (String × List String) :=
  [("extensions/abc", ["a.crx"]), ("extensions/abc/nested", ["b.crx"])]

/-- grass-desktop_main.py line 24. -/
def WINDOW_SEARCH_BACKOFF_MIN_FACTOR : Nat := 11

/-- grass-desktop_main.py line 25. -/
def WINDOW_SEARCH_BACKOFF_MAX_FACTOR : Nat := 31

/-- grass-desktop_main.py lines 114–118: `backoff_time =
random.randint(11, 31) * (attempt + 1) * retry_multiplier`; `jitter` is the
drawn random value and `attemptIndex` stands for `attempt + 1`. -/
def backoff_time (jitter attemptIndex retryMultiplier : Nat) : Nat :=
  jitter * attemptIndex * retryMultiplier

/-- grass-desktop_main.py line 36. -/
def XDOTOOL_TYPE_DELAY_MS : String := "125"

/-- Python `str.isalnum()` over its ASCII fragment: nonempty and every
character alphanumeric. -/
def pyIsAlnum (s : String) : Bool := !(s == "") && s.toList.all Char.isAlphanum

/-- Python `" " in s`: whether `s` contains the space character (32). -/
def containsSpace (s : String) : Bool := s.data.any (fun c => c == Char.ofNat 32)

/-- grass-desktop_main.py lines 188–192.  Python operator precedence parses
the guard as `(" " in ks) or ((len(ks) > 1) and ks.isalnum())`; the then
branch builds an `xdotool type` command, the else branch `xdotool key`. -/
def build_xdotool_cmd (keySequence delayMs : String) : List String :=
  if containsSpace keySequence || (decide (keySequence.length > 1) && pyIsAlnum keySequence) then
    ["xdotool", "type", "--delay", delayMs, keySequence]
  else
    ["xdotool", "key", keySequence]

/-- Outcome of one `subprocess.run` call: either the command completed with
a return code, or spawning failed because the executable is missing. -/
inductive RunOutcome where
  | completed (returncode : Int)
  | fileNotFound
  deriving DecidableEq, Repr

/-- grass-desktop_main.py lines 51–67 `_run_subprocess` as called with
`check=False`: a completed run yields its return code; a missing executable
logs and re-raises `FileNotFoundError`. -/
def run_subprocess (outcome : RunOutcome) : Except PyErr Int :=
  match outcome with
  | .completed rc => Except.ok rc
  | .fileNotFound => Except.error PyErr.fileNotFoundError

/-- grass-desktop_main.py lines 176–202 `send_xdotool_key`: build the
command, run it, return `returncode == 0`; the surrounding
`except (FileNotFoundError, subprocess.CalledProcessError)` clause catches
both exception kinds and returns `False`.  `runner` maps each command to
the outcome of running it. -/
def send_xdotool_key (runner : List String → RunOutcome) (keySequence delayMs : String) :
    Except PyErr Bool :=
  let cmd := build_xdotool_cmd keySequence delayMs
  match run_subprocess (runner cmd) with
  | Except.ok rc => Except.ok (rc == 0)
  | Except.error PyErr.fileNotFoundError => Except.ok false
  | Except.error PyErr.calledProcessError => Except.ok false
  | Except.error e => Except.error e

/-- Whether a call raised (propagated a Python exception) rather than
returned a value. -/
def raised {α : Type} (r : Except PyErr α) : Bool :=
  match r with
  | Except.error _ => true
  | Except.ok _ => false

/-- Outcome of one `subprocess.check_output` xdotool search attempt: stdout
lines on exit 0, `CalledProcessError` on nonzero exit (xdotool's no-match
signal), or a missing executable. -/
inductive SearchAttempt where
  | output (lines : List String)
  | calledProcessError
  | fileNotFound
  deriving DecidableEq, Repr

/-- The attempt loop of grass-desktop_main.py lines 91–125 (`attempts` maps
each attempt number to its outcome): a nonempty window list returns
immediately; empty output and `CalledProcessError` fall through to the next
attempt; `FileNotFoundError` returns `None` at once; an exhausted loop
returns `None`.  Sleeps do not affect the result and are elided. -/
def search_attempt_loop (attempts : Nat → SearchAttempt) : Nat → Nat → Option (List String)
  | _, 0 => none
  | i, fuel + 1 =>
    match attempts i with
    | .fileNotFound => none
    | .output lines =>
      if lines.isEmpty then search_attempt_loop attempts (i + 1) fuel else some lines
    | .calledProcessError => search_attempt_loop attempts (i + 1) fuel

/-- grass-desktop_main.py lines 70–125 `search_windows_by_name`. -/
def search_windows_by_name (attempts : Nat → SearchAttempt) (maxAttempts : Nat) :
    Option (List String) :=
  search_attempt_loop attempts 0 maxAttempts

/-- A `Popen` handle: `returncode` is `none` while the process runs
(`poll()` returns `None`) and holds the exit code once it has exited. -/
structure PProc where
  returncode : Option Int
  deriving DecidableEq, Repr

/-- Python `proc.poll() is None`. -/
def PProc.alive (p : PProc) : Bool := p.returncode.isNone

/-- How a live process reacts to `terminate()`: whether it exits within the
grace period, its return code when it does, and its return code after the
forced `kill()` otherwise. -/
structure ProcBehavior where
  gracefulWithinTimeout : Bool
  terminateCode : Int
  killCode : Int
  deriving DecidableEq, Repr

/-- grass-desktop_main.py lines 205–224 `kill_process`: a no-op when
`poll()` is not `None`; otherwise `terminate()` then `wait(timeout)`,
falling back to `kill()` plus `wait()` on `TimeoutExpired`.  Both paths
leave `returncode` set; the function is total (it never raises). -/
def kill_process (b : ProcBehavior) (p : PProc) : PProc :=
  match p.returncode with
  | some _ => p
  | none => if b.gracefulWithinTimeout then ⟨some b.terminateCode⟩ else ⟨some b.killCode⟩

/-- grass-desktop_main.py line 13. -/
def GRASS_WINDOW_NAME : String := "Grass"

/-- Oracles consumed by `configure_grass`, indexed by consultation order:
results of `search_windows_by_name` calls, `poll()` results, whether each
in-config relaunch succeeds, `windowfocus` return codes, each
`send_xdotool_key` result, and whether the flag-file write succeeds. -/
structure CfgEnv where
  probe : Nat → Option (List String)
  poll : Nat → Option Int
  relaunchOk : Nat → Bool
  focusRc : Nat → Int
  sendOk : Nat → Bool
  flagWriteOk : Bool

/-- Per-oracle consultation counters. -/
structure Ctrs where
  probe : Nat
  poll : Nat
  relaunch : Nat
  focus : Nat
  send : Nat
  deriving DecidableEq, Repr

/-- All counters start at zero. -/
def Ctrs.start : Ctrs := ⟨0, 0, 0, 0, 0⟩

/-- Externally observable actions performed by the login/configuration
code: window searches, window focusing, key or text injection, relaunching
the Grass process, and writing the configured-marker file. -/
inductive CfgAction where
  | probe (windowName : String)
  | focus (windowId : String)
  | key (keySequence : String)
  | relaunch
  | writeFlag
  deriving DecidableEq, Repr

/-- The recovery step shared by configure_grass failure branches
(grass-desktop_main.py lines 293–300, 309–312, 319–322): if `poll()` shows
the process died, relaunch it; a failed relaunch aborts configuration
(`none`), otherwise the attempt loop continues with advanced counters. -/
def deadRelaunch (env : CfgEnv) (c : Ctrs) (tr : List CfgAction) : Option Ctrs × List CfgAction :=
  let c₁ := { c with poll := c.poll + 1 }
  match env.poll c.poll with
  | some _ =>
    let ok := env.relaunchOk c₁.relaunch
    let c₂ := { c₁ with relaunch := c₁.relaunch + 1 }
    let tr₂ := tr ++ [CfgAction.relaunch]
    if ok then (some c₂, tr₂) else (none, tr₂)
  | none => (some c₁, tr)

/-- Sequential key sending with short-circuit: Python's
`all(send_xdotool_key(...) for ...)` and the chained
`if not send_xdotool_key(...): continue` steps stop at the first failed
send. -/
def sendSeq (env : CfgEnv) : List String → Ctrs → List CfgAction → Bool × Ctrs × List CfgAction
  | [], c, tr => (true, c, tr)
  | k :: ks, c, tr =>
    let ok := env.sendOk c.send
    let c₁ := { c with send := c.send + 1 }
    let tr₁ := tr ++ [CfgAction.key k]
    if ok then sendSeq env ks c₁ tr₁ else (false, c₁, tr₁)

/-- grass-desktop_main.py line 343: `re.sub(r"^-", r"\\-", password)`
escapes a leading dash. -/
def escapeLeadingDash (p : String) : String :=
  if p.startsWith "-" then "\\-" ++ p.drop 1 else p

/-- The injection sequence of grass-desktop_main.py lines 330–359, in
order: four Tab, Return, the username, Tab, the escaped password, Return,
two Tab, two space, Escape. -/
def loginKeySeq (emailUsername password : String) : List String :=
  ["Tab", "Tab", "Tab", "Tab", "Return", emailUsername, "Tab",
   escapeLeadingDash password, "Return", "Tab", "Tab", "space", "space", "Escape"]

/-- The `for attempt in range(max_attempts)` body of configure_grass
(grass-desktop_main.py lines 286–373): probe for the window (relaunching a
dead process on failure), re-probe, focus the most recent window id, run
the injection sequence, and finally write the configured flag.  Each failed
step advances to the next attempt; an exhausted loop returns failure.  The
result is (return value, flag now exists, performed actions). -/
def configAttemptLoop (env : CfgEnv) (emailUsername password : String) :
    Nat → Ctrs → List CfgAction → Bool × Bool × List CfgAction
  | 0, _, tr => (false, false, tr)
  | fuel + 1, c, tr =>
    let w₁ := env.probe c.probe
    let c₁ := { c with probe := c.probe + 1 }
    let tr₁ := tr ++ [CfgAction.probe GRASS_WINDOW_NAME]
    match w₁ with
    | none =>
      match deadRelaunch env c₁ tr₁ with
      | (some c₂, tr₂) => configAttemptLoop env emailUsername password fuel c₂ tr₂
      | (none, tr₂) => (false, false, tr₂)
    | some _ =>
      let w₂ := env.probe c₁.probe
      let c₂ := { c₁ with probe := c₁.probe + 1 }
      let tr₂ := tr₁ ++ [CfgAction.probe GRASS_WINDOW_NAME]
      match w₂ with
      | none =>
        match deadRelaunch env c₂ tr₂ with
        | (some c₃, tr₃) => configAttemptLoop env emailUsername password fuel c₃ tr₃
        | (none, tr₃) => (false, false, tr₃)
      | some [] =>
        match deadRelaunch env c₂ tr₂ with
        | (some c₃, tr₃) => configAttemptLoop env emailUsername password fuel c₃ tr₃
        | (none, tr₃) => (false, false, tr₃)
      | some (i :: is) =>
        let lastId := is.getLastD i
        let rc := env.focusRc c₂.focus
        let c₃ := { c₂ with focus := c₂.focus + 1 }
        let tr₃ := tr₂ ++ [CfgAction.focus lastId]
        if rc == 0 then
          match sendSeq env (loginKeySeq emailUsername password) c₃ tr₃ with
          | (true, _, tr₄) =>
            if env.flagWriteOk then (true, true, tr₄ ++ [CfgAction.writeFlag])
            else (false, false, tr₄)
          | (false, c₄, tr₄) => configAttemptLoop env emailUsername password fuel c₄ tr₄
        else
          match deadRelaunch env c₃ tr₃ with
          | (some c₄, tr₄) => configAttemptLoop env emailUsername password fuel c₄ tr₄
          | (none, tr₄) => (false, false, tr₄)

/-- Python truthiness of an optional string (unset and empty are falsy). -/
def pyTruthy : Option String → Bool
  | none => false
  | some s => !(s == "")

/-- Python `s.lower()`, computed over the character list. -/
def pyLower (s : String) : String := String.mk (s.data.map Char.toLower)

/-- grass-desktop_main.py lines 248–375 `configure_grass`: if the
configured-marker file already exists, return `True` immediately; with
missing credentials return `False`; otherwise run the attempt loop.  The
result triple is (return value, marker exists afterwards, actions
performed).  `_retryMultiplier` only scales sleeps and is unused. -/
def configure_grass (env : CfgEnv) (flagExists : Bool) (emailUsername password : Option String)
    (maxAttempts _retryMultiplier : Nat) : Bool × Bool × List CfgAction :=
  if flagExists then (true, flagExists, [])
  else if !(pyTruthy emailUsername && pyTruthy password) then (false, flagExists, [])
  else configAttemptLoop env (emailUsername.getD "") (password.getD "")
    maxAttempts Ctrs.start []

/-- Outcome of one `subprocess.Popen([GRASS_EXECUTABLE_PATH])` attempt:
either the executable is missing, or a process spawns and `poll()` after
the settle wait reports `none` (running) or a premature exit code. -/
inductive SpawnOutcome where
  | fileNotFound
  | spawned (pollAfterWait : Option Int)
  deriving DecidableEq, Repr

/-- The attempt loop of grass-desktop_main.py lines 145–173: a missing
executable returns `None` at once; a premature exit retries until attempts
run out; a running process is returned. -/
def launchAttemptLoop (spawn : Nat → SpawnOutcome) : Nat → Nat → Option PProc
  | _, 0 => none
  | i, fuel + 1 =>
    match spawn i with
    | .fileNotFound => none
    | .spawned (some _) => launchAttemptLoop spawn (i + 1) fuel
    | .spawned none => some ⟨none⟩

/-- grass-desktop_main.py lines 128–173 `launch_grass_with_retries`. -/
def launch_grass_with_retries (spawn : Nat → SpawnOutcome) (maxAttempts : Nat) : Option PProc :=
  launchAttemptLoop spawn 0 maxAttempts

/-- How the final `grass_proc.wait()` of main ends: the process exits with
a code, or the user interrupts (Ctrl+C) while the process is still running,
whose reaction to termination is `behavior`. -/
inductive WaitOutcome where
  | exited (code : Int)
  | interrupted (behavior : ProcBehavior)
  deriving DecidableEq, Repr

/-- The exit code computed by grass-desktop_main.py lines 475–482:
`sys.exit(grass_proc.returncode if grass_proc.returncode is not None else
0)`, where an interrupt first runs `kill_process`. -/
def waitExitCode (w : WaitOutcome) (p : PProc) : Int :=
  match w with
  | .exited c => c
  | .interrupted b => ((kill_process b p).returncode).getD 0

/-- Environment of one run of grass-desktop_main.py `main`. -/
structure MainEnv where
  spawn : Nat → SpawnOutcome
  cfg : CfgEnv
  flagExists : Bool
  emailUsername : Option String
  password : Option String
  tryAutologinStr : String
  waitOutcome : WaitOutcome

/-- The spec's orchestrator mode after the configuration phase. -/
inductive Mode where
  | monitoring
  | manual
  deriving DecidableEq, Repr

/-- Result of a `main` run: either `sys.exit(1)` because the launch failed
(the only exit before the wait), or the script reached `grass_proc.wait()`
with the given mode, process state at wait entry, configuration action
trace, whether an interrupt triggered `kill_process`, and final exit
code. -/
inductive MainOutcome where
  | launchFailure (exitCode : Int)
  | completed (mode : Mode) (procAtWait : PProc) (cfgTrace : List CfgAction)
      (interrupted : Bool) (exitCode : Int)
  deriving DecidableEq, Repr

/-- Whether the run exited before reaching the wait. -/
def MainOutcome.isLaunchFailure : MainOutcome → Bool
  | .launchFailure _ => true
  | .completed _ _ _ _ _ => false

/-- The mode of a run that reached the wait. -/
def MainOutcome.modeOf : MainOutcome → Option Mode
  | .launchFailure _ => none
  | .completed m _ _ _ _ => some m

/-- The process state at wait entry of a run that reached the wait. -/
def MainOutcome.procAtWait : MainOutcome → Option PProc
  | .launchFailure _ => none
  | .completed _ p _ _ _ => some p

/-- The process exit code of the run. -/
def MainOutcome.exitCode : MainOutcome → Int
  | .launchFailure c => c
  | .completed _ _ _ _ c => c

/-- grass-desktop_main.py lines 378–482 `main`: compute whether autologin
should run (TRY_AUTOLOGIN is "true" case-insensitively and both credentials
are set and nonempty), launch Grass (exit 1 on failure), run
`configure_grass` when autologin is on — a `False` result only logs and
switches to manual mode, the process is neither killed nor exited — then
block in `grass_proc.wait()` and exit with the process return code,
terminating the process first on a user interrupt. -/
def grass_desktop_main (env : MainEnv) (maxRetryMultiplier : Nat) : MainOutcome :=
  let shouldTry0 := pyLower env.tryAutologinStr == "true"
  let credsOk := pyTruthy env.emailUsername && pyTruthy env.password
  let shouldTry := shouldTry0 && credsOk
  match launch_grass_with_retries env.spawn maxRetryMultiplier with
  | none => MainOutcome.launchFailure 1
  | some proc =>
    let cfg :=
      if shouldTry then
        configure_grass env.cfg env.flagExists env.emailUsername env.password
          maxRetryMultiplier maxRetryMultiplier
      else (false, env.flagExists, [])
    let mode := if shouldTry && cfg.1 then Mode.monitoring else Mode.manual
    match env.waitOutcome with
    | .exited c => MainOutcome.completed mode proc cfg.2.2 false c
    | .interrupted b =>
      MainOutcome.completed mode proc cfg.2.2 true
        (((kill_process b proc).returncode).getD 0)

/-- A configuration oracle in which the Grass window never appears and the
process stays alive. -/
def windowNeverFoundCfg : CfgEnv where
  probe := fun _ => none
  poll := fun _ => none
  relaunchOk := fun _ => true
  focusRc := fun _ => 0
  sendOk := fun _ => true
  flagWriteOk := true

/-- A run in which the launch succeeds, autologin is enabled with
credentials, but the Grass window never appears. -/
def manualModeEnv : MainEnv where
  spawn := fun _ => SpawnOutcome.spawned none
  cfg := windowNeverFoundCfg
  flagExists := false
  emailUsername := some "user@example.com"
  password := some "hunter2"
  tryAutologinStr := "true"
  waitOutcome := WaitOutcome.exited 0

/-- A run that is interrupted by the user while the (already configured)
process is running; the process dies from the graceful terminate with the
SIGTERM return code -15. -/
def interruptEnv : MainEnv where
  spawn := fun _ => SpawnOutcome.spawned none
  cfg := windowNeverFoundCfg
  flagExists := true
  emailUsername := some "user@example.com"
  password := some "hunter2"
  tryAutologinStr := "true"
  waitOutcome := WaitOutcome.interrupted ⟨true, -15, -9⟩

/-- A run in which the Grass executable is missing. -/
def launchFailEnv : MainEnv where
  spawn := fun _ => SpawnOutcome.fileNotFound
  cfg := windowNeverFoundCfg
  flagExists := false
  emailUsername := some "user@example.com"
  password := some "hunter2"
  tryAutologinStr := "true"
  waitOutcome := WaitOutcome.exited 0

/-! ## Helper lemmas -/

theorem head?_filter_eq_find? {α : Type} (p : α → Bool) (l : List α) :
    (l.filter p).head? = l.find? p := by
  induction l with
  | nil => rfl
  | cons a l ih =>
    by_cases h : p a
    · simp [List.filter_cons, List.find?_cons, h]
    · simp [List.filter_cons, List.find?_cons, h, ih]

theorem filter_eq_nil_of_find?_none {α : Type} {p : α → Bool} {l : List α}
    (h : l.find? p = none) : l.filter p = [] := by
  have := head?_filter_eq_find? p l
  rw [h] at this
  cases hf : l.filter p with
  | nil => rfl
  | cons x xs => rw [hf] at this; cases this

theorem find_crx_grass_main_eq_firstCrxSpec (entries : List (String × List String)) :
    find_crx_grass_main entries = firstCrxSpec entries := by
  induction entries with
  | nil => rfl
  | cons e rest ih =>
    obtain ⟨root, files⟩ := e
    cases h : files.find? isCrxFile with
    | none =>
      have hfil : files.filter isCrxFile = [] := filter_eq_nil_of_find?_none h
      simp only [find_crx_grass_main, h, firstCrxSpec, List.foldr_cons, hfil,
        List.map_nil, List.nil_append]
      exact ih
    | some f =>
      have hhead : (files.filter isCrxFile).head? = some f := by
        rw [head?_filter_eq_find?]; exact h
      obtain ⟨t, hft⟩ : ∃ t, files.filter isCrxFile = f :: t := by
        cases hf : files.filter isCrxFile with
        | nil => rw [hf] at hhead; cases hhead
        | cons x xs =>
          rw [hf] at hhead
          cases hhead
          exact ⟨xs, rfl⟩
      simp [find_crx_grass_main, h, firstCrxSpec, hft]

theorem getLast?_cons_optOr {α : Type} (a : α) (l : List α) :
    (a :: l).getLast? = optOr l.getLast? (some a) := by
  induction l generalizing a with
  | nil => rfl
  | cons b l ih =>
    rw [List.getLast?_cons_cons, ih b]
    cases hl : l.getLast? <;> simp [optOr]

theorem find_crx_grass_node_aux_eq (entries : List (String × List String)) :
    ∀ acc, find_crx_grass_node_aux acc entries =
      optOr ((entries.filterMap
        (fun e => (e.2.find? isCrxFile).map (pjoin e.1))).getLast?) acc := by
  induction entries with
  | nil => intro acc; rfl
  | cons e rest ih =>
    intro acc
    obtain ⟨root, files⟩ := e
    cases h : files.find? isCrxFile with
    | none =>
      simp only [find_crx_grass_node_aux, h, List.filterMap_cons, Option.map_none']
      exact ih acc
    | some f =>
      simp only [find_crx_grass_node_aux, h, List.filterMap_cons, Option.map_some']
      rw [ih (some (pjoin root f)), getLast?_cons_optOr]
      cases hrest : (rest.filterMap
        (fun e => (e.2.find? isCrxFile).map (pjoin e.1))).getLast? <;> simp [optOr]

theorem find_crx_grass_node_eq_lastDirCrxSpec (entries : List (String × List String)) :
    find_crx_grass_node entries = lastDirCrxSpec entries := by
  rw [find_crx_grass_node, find_crx_grass_node_aux_eq entries none, lastDirCrxSpec]
  cases h : (entries.filterMap
    (fun e => (e.2.find? isCrxFile).map (pjoin e.1))).getLast? <;> simp [optOr]

theorem firstCrxSpec_isNone_eq (entries : List (String × List String)) :
    (firstCrxSpec entries).isNone = (lastDirCrxSpec entries).isNone := by
  induction entries with
  | nil => rfl
  | cons e rest ih =>
    obtain ⟨root, files⟩ := e
    cases h : files.find? isCrxFile with
    | none =>
      have hfil : files.filter isCrxFile = [] := filter_eq_nil_of_find?_none h
      simp only [firstCrxSpec, lastDirCrxSpec, List.foldr_cons, List.filterMap_cons, h,
        Option.map_none', hfil, List.map_nil, List.nil_append] at ih ⊢
      exact ih
    | some f =>
      have hhead : (files.filter isCrxFile).head? = some f := by
        rw [head?_filter_eq_find?]; exact h
      obtain ⟨t, hft⟩ : ∃ t, files.filter isCrxFile = f :: t := by
        cases hf : files.filter isCrxFile with
        | nil => rw [hf] at hhead; cases hhead
        | cons x xs =>
          rw [hf] at hhead
          cases hhead
          exact ⟨xs, rfl⟩
      simp only [firstCrxSpec, lastDirCrxSpec, List.foldr_cons, List.filterMap_cons, h,
        Option.map_some', hft, List.map_cons, List.cons_append, List.head?_cons,
        getLast?_cons_optOr]
      cases hrest : (rest.filterMap
        (fun e => (e.2.find? isCrxFile).map (pjoin e.1))).getLast? <;> simp [optOr]

theorem configAttemptLoop_window_never_found (env : CfgEnv) (emailUsername password : String)
    (hprobe : ∀ i, env.probe i = none) (hpoll : ∀ i, env.poll i = none) :
    ∀ fuel c tr, (configAttemptLoop env emailUsername password fuel c tr).1 = false ∧
      (configAttemptLoop env emailUsername password fuel c tr).2.1 = false := by
  intro fuel
  induction fuel with
  | zero => intro c tr; exact ⟨rfl, rfl⟩
  | succ n ih =>
    intro c tr
    simp only [configAttemptLoop, hprobe, deadRelaunch, hpoll]
    exact ih _ _

/-! ## Claim theorems -/

/-- Claim C1: every invocation of `configure_grass` made while the
configured-marker file already exists returns success immediately, performs
zero actions (no window search, no focus, no key or text injection, no
relaunch, no write) and leaves the marker state unchanged. -/
theorem configure_grass_short_circuits (env : CfgEnv) (emailUsername password : Option String)
    (maxAttempts retryMultiplier : Nat) :
    configure_grass env true emailUsername password maxAttempts retryMultiplier =
      (true, true, ([] : List CfgAction)) := rfl

/-- Claim C2: when the launch succeeds but the Grass window never appears
(every probe returns `None` while the process stays alive), the orchestrator
does not exit with code 1 before the wait, reaches the wait in manual mode
with the launched process still alive, and its exit code is the one
determined by the wait phase, not a forced 1. -/
theorem config_exhausted_degrades_to_manual (env : MainEnv) (m : Nat)
    (hm : 1 ≤ m)
    (hspawn : env.spawn 0 = SpawnOutcome.spawned none)
    (hflag : env.flagExists = false)
    (hemail : pyTruthy env.emailUsername = true)
    (hpwd : pyTruthy env.password = true)
    (htry : env.tryAutologinStr = "true")
    (hprobe : ∀ i, env.cfg.probe i = none)
    (hpoll : ∀ i, env.cfg.poll i = none) :
    (grass_desktop_main env m).isLaunchFailure = false ∧
      (grass_desktop_main env m).modeOf = some Mode.manual ∧
      (grass_desktop_main env m).procAtWait = some ⟨none⟩ ∧
      (grass_desktop_main env m).exitCode = waitExitCode env.waitOutcome ⟨none⟩ := by
  obtain ⟨k, rfl⟩ : ∃ k, m = k + 1 := ⟨m - 1, by omega⟩
  have hlaunch : launch_grass_with_retries env.spawn (k + 1) = some ⟨none⟩ := by
    simp [launch_grass_with_retries, launchAttemptLoop, hspawn]
  have hcfg := configAttemptLoop_window_never_found env.cfg (env.emailUsername.getD "")
    (env.password.getD "") hprobe hpoll (k + 1) Ctrs.start []
  have hcg1 : (configure_grass env.cfg env.flagExists env.emailUsername env.password
      (k + 1) (k + 1)).1 = false := by
    rw [hflag]
    simp only [configure_grass, Bool.false_eq_true, if_false, hemail, hpwd, Bool.and_self,
      Bool.not_true]
    exact hcfg.1
  have htl : pyLower "true" = "true" := rfl
  cases hw : env.waitOutcome with
  | exited c =>
    simp [grass_desktop_main, hlaunch, htry, htl, hemail, hpwd, hcg1, hw, waitExitCode,
      MainOutcome.isLaunchFailure, MainOutcome.modeOf, MainOutcome.procAtWait,
      MainOutcome.exitCode]
  | interrupted b =>
    simp [grass_desktop_main, hlaunch, htry, htl, hemail, hpwd, hcg1, hw, waitExitCode,
      MainOutcome.isLaunchFailure, MainOutcome.modeOf, MainOutcome.procAtWait,
      MainOutcome.exitCode]

/-- Witness for `config_exhausted_degrades_to_manual` at a concrete run. -/
theorem config_exhausted_degrades_to_manual_witness :
    manualModeEnv.flagExists = false ∧
      (grass_desktop_main manualModeEnv 3).modeOf = some Mode.manual ∧
      (grass_desktop_main manualModeEnv 3).procAtWait = some ⟨none⟩ := by
  have h := config_exhausted_degrades_to_manual manualModeEnv 3 (by decide) rfl rfl rfl rfl rfl
    (fun _ => rfl) (fun _ => rfl)
  exact ⟨rfl, h.2.1, h.2.2.1⟩

/-- Claim C3: on an otherwise-valid manifest, each of the four required key
paths, when individually missing, yields the `KeyError` naming exactly that
key (the code's realisation of MissingResultKey / MissingDataKey /
MissingVersionKey / MissingPlatformLink); no earlier access masks a later
key's absence; the four failures are pairwise distinct; and a complete
manifest yields exactly the stored version and link, never a default. -/
theorem manifest_missing_keys_distinct_failures
    (fs gs hs ls : List (String × Json)) (v u : Json) :
    (List.lookup "result" fs = none →
      extract_download_info (Json.obj fs) = Except.error (PyErr.keyError "result")) ∧
    (List.lookup "result" fs = some (Json.obj gs) → List.lookup "data" gs = none →
      extract_download_info (Json.obj fs) = Except.error (PyErr.keyError "data")) ∧
    (List.lookup "result" fs = some (Json.obj gs) →
      List.lookup "data" gs = some (Json.obj hs) → List.lookup "version" hs = none →
      extract_download_info (Json.obj fs) = Except.error (PyErr.keyError "version")) ∧
    (List.lookup "result" fs = some (Json.obj gs) →
      List.lookup "data" gs = some (Json.obj hs) → List.lookup "version" hs = some v →
      List.lookup "links" hs = some (Json.obj ls) → List.lookup "linux" ls = none →
      extract_download_info (Json.obj fs) = Except.error (PyErr.keyError "linux")) ∧
    (List.lookup "result" fs = some (Json.obj gs) →
      List.lookup "data" gs = some (Json.obj hs) → List.lookup "version" hs = some v →
      List.lookup "links" hs = some (Json.obj ls) → List.lookup "linux" ls = some u →
      extract_download_info (Json.obj fs) = Except.ok (v, u)) ∧
    (PyErr.keyError "result" ≠ PyErr.keyError "data" ∧
      PyErr.keyError "result" ≠ PyErr.keyError "version" ∧
      PyErr.keyError "result" ≠ PyErr.keyError "linux" ∧
      PyErr.keyError "data" ≠ PyErr.keyError "version" ∧
      PyErr.keyError "data" ≠ PyErr.keyError "linux" ∧
      PyErr.keyError "version" ≠ PyErr.keyError "linux") := by
  refine ⟨?_, ?_, ?_, ?_, ?_, by decide⟩
  · intro h1
    simp [extract_download_info, Json.getItem, h1]
  · intro h1 h2
    simp [extract_download_info, Json.getItem, h1, h2]
  · intro h1 h2 h3
    simp [extract_download_info, Json.getItem, h1, h2, h3]
  · intro h1 h2 h3 h4 h5
    simp [extract_download_info, Json.getItem, h1, h2, h3, h4, h5]
  · intro h1 h2 h3 h4 h5
    simp [extract_download_info, Json.getItem, h1, h2, h3, h4, h5]

/-- Witness for `manifest_missing_keys_distinct_failures` on the concrete
single-key-removed manifests and the full manifest. -/
theorem manifest_missing_keys_distinct_failures_witness :
    extract_download_info manifestNoResult = Except.error (PyErr.keyError "result") ∧
      extract_download_info manifestNoData = Except.error (PyErr.keyError "data") ∧
      extract_download_info manifestNoVersion = Except.error (PyErr.keyError "version") ∧
      extract_download_info manifestNoLinux = Except.error (PyErr.keyError "linux") ∧
      extract_download_info fullManifest =
        Except.ok (Json.str "5.2.0", Json.str "https://example.com/ext.zip") := by
  refine ⟨?_, ?_, ?_, ?_, ?_⟩
  · exact (manifest_missing_keys_distinct_failures [("status", Json.str "ok")] [] [] []
      Json.null Json.null).1 rfl
  · exact (manifest_missing_keys_distinct_failures [("result", Json.obj [("meta", Json.str "x")])]
      [("meta", Json.str "x")] [] [] Json.null Json.null).2.1 rfl rfl
  · exact (manifest_missing_keys_distinct_failures
      [("result", Json.obj [("data", Json.obj
        [("links", Json.obj [("linux", Json.str "https://example.com/ext.zip")])])])]
      [("data", Json.obj [("links", Json.obj [("linux", Json.str "https://example.com/ext.zip")])])]
      [("links", Json.obj [("linux", Json.str "https://example.com/ext.zip")])] []
      Json.null Json.null).2.2.1 rfl rfl rfl
  · exact (manifest_missing_keys_distinct_failures
      [("result", Json.obj [("data", Json.obj
        [("version", Json.str "5.2.0"),
         ("links", Json.obj [("windows", Json.str "https://example.com/ext.exe")])])])]
      [("data", Json.obj [("version", Json.str "5.2.0"),
         ("links", Json.obj [("windows", Json.str "https://example.com/ext.exe")])])]
      [("version", Json.str "5.2.0"),
       ("links", Json.obj [("windows", Json.str "https://example.com/ext.exe")])]
      [("windows", Json.str "https://example.com/ext.exe")]
      (Json.str "5.2.0") Json.null).2.2.2.1 rfl rfl rfl rfl rfl
  · exact (manifest_missing_keys_distinct_failures
      [("result", Json.obj [("data", Json.obj
        [("version", Json.str "5.2.0"),
         ("links", Json.obj [("linux", Json.str "https://example.com/ext.zip"),
                             ("windows", Json.str "https://example.com/ext.exe")])])])]
      [("data", Json.obj [("version", Json.str "5.2.0"),
         ("links", Json.obj [("linux", Json.str "https://example.com/ext.zip"),
                             ("windows", Json.str "https://example.com/ext.exe")])])]
      [("version", Json.str "5.2.0"),
       ("links", Json.obj [("linux", Json.str "https://example.com/ext.zip"),
                           ("windows", Json.str "https://example.com/ext.exe")])]
      [("linux", Json.str "https://example.com/ext.zip"),
       ("windows", Json.str "https://example.com/ext.exe")]
      (Json.str "5.2.0") (Json.str "https://example.com/ext.zip")).2.2.2.2.1
      rfl rfl rfl rfl rfl

/-- Claim C4 counterexample: on a walk with `.crx` files in two
directories, the grass-node scan returns the later directory's file, not
the first matching file of the walk. -/
theorem crx_not_first_counterexample :
    find_crx_grass_node twoDirWalk = some "extensions/abc/nested/b.crx" ∧
      firstCrxSpec twoDirWalk = some "extensions/abc/a.crx" ∧
      find_crx_grass_node twoDirWalk ≠ firstCrxSpec twoDirWalk := by
  refine ⟨rfl, rfl, ?_⟩
  decide

/-- Claim C4 (amended): the grass_main scan returns the first `.crx` file
in walk order; the grass-node scan returns the first `.crx` file of the
last directory in walk order containing one (its inner `break` does not
leave the outer loop); each fails with `FileNotFoundError` exactly when its
specification value is empty, and the two specifications are empty
together (so the zero-match failure behaviour coincides). -/
theorem crx_extraction_first_vs_last (entries : List (String × List String)) :
    locate_crx_grass_main entries = crxResultOf (firstCrxSpec entries) ∧
      locate_crx_grass_node entries = crxResultOf (lastDirCrxSpec entries) ∧
      (firstCrxSpec entries).isNone = (lastDirCrxSpec entries).isNone :=
  ⟨by rw [locate_crx_grass_main, find_crx_grass_main_eq_firstCrxSpec],
   by rw [locate_crx_grass_node, find_crx_grass_node_eq_lastDirCrxSpec],
   firstCrxSpec_isNone_eq entries⟩

/-- Claim C5: with a fixed jitter draw within the configured bounds and a
fixed positive retry multiplier, the probe backoff strictly increases with
the attempt index. -/
theorem backoff_strictly_increasing (jitter attemptIndex attemptIndex' retryMultiplier : Nat)
    (hjmin : WINDOW_SEARCH_BACKOFF_MIN_FACTOR ≤ jitter)
    (hjmax : jitter ≤ WINDOW_SEARCH_BACKOFF_MAX_FACTOR)
    (hm : 1 ≤ retryMultiplier) (hi : 1 ≤ attemptIndex)
    (hlt : attemptIndex < attemptIndex') :
    backoff_time jitter attemptIndex retryMultiplier <
      backoff_time jitter attemptIndex' retryMultiplier := by
  have hj : 0 < jitter :=
    lt_of_lt_of_le (by norm_num [WINDOW_SEARCH_BACKOFF_MIN_FACTOR]) hjmin
  have hm0 : 0 < retryMultiplier := hm
  unfold backoff_time
  exact mul_lt_mul_of_pos_right (mul_lt_mul_of_pos_left hlt hj) hm0

/-- Witness for `backoff_strictly_increasing` at jitter 11, attempt indices
1 < 2, multiplier 3. -/
theorem backoff_strictly_increasing_witness :
    WINDOW_SEARCH_BACKOFF_MIN_FACTOR ≤ 11 ∧ 11 ≤ WINDOW_SEARCH_BACKOFF_MAX_FACTOR ∧
      backoff_time 11 1 3 < backoff_time 11 2 3 :=
  ⟨by decide, by decide,
    backoff_strictly_increasing 11 1 2 3 (by decide) (by decide) (by decide) (by decide)
      (by decide)⟩

/-- Claim C6 counterexample: with the xdotool executable missing, the
injector returns the ordinary per-action failure value `False`; it does not
raise or propagate any exception to its caller. -/
theorem send_missing_tool_counterexample :
    send_xdotool_key (fun _ => RunOutcome.fileNotFound) "Tab" XDOTOOL_TYPE_DELAY_MS =
        Except.ok false ∧
      raised (send_xdotool_key (fun _ => RunOutcome.fileNotFound) "Tab" XDOTOOL_TYPE_DELAY_MS) =
        false :=
  ⟨rfl, rfl⟩

/-- Claim C6 (amended): `send_xdotool_key` never raises — its
`except (FileNotFoundError, CalledProcessError)` clause catches injection
subsystem unavailability and returns the ordinary per-action failure value
`False`, indistinguishable from an ordinary failed action; in particular it
also never raises when the expected UI target is merely absent. -/
theorem send_never_raises (runner : List String → RunOutcome) (keySequence delayMs : String) :
    raised (send_xdotool_key runner keySequence delayMs) = false ∧
      send_xdotool_key (fun _ => RunOutcome.fileNotFound) keySequence delayMs =
        Except.ok false := by
  constructor
  · cases h : runner (build_xdotool_cmd keySequence delayMs) <;>
      simp [send_xdotool_key, run_subprocess, raised, h]
  · rfl

/-- Claim C7 counterexample: a run interrupted by the user while the
process is alive terminates the process (which dies from the graceful
terminate with return code -15) and exits with code -15, not 0. -/
theorem interrupt_exit_code_counterexample :
    grass_desktop_main interruptEnv 1 =
        MainOutcome.completed Mode.monitoring ⟨none⟩ [] true (-15) ∧
      (grass_desktop_main interruptEnv 1).exitCode ≠ 0 := by
  refine ⟨rfl, ?_⟩
  decide

/-- Claim C7 (amended): the exit code is 1 when the launch exhausts its
budget or the executable is missing; every run that reaches the wait exits
with the code determined by the wait phase — the process's own exit code on
completion, or the terminated process's return code after a user interrupt
(0 exactly when that code is 0 or unset). -/
theorem exit_code_follows_process (env : MainEnv) (m : Nat) :
    (launch_grass_with_retries env.spawn m = none →
      grass_desktop_main env m = MainOutcome.launchFailure 1) ∧
    (∀ p, launch_grass_with_retries env.spawn m = some p →
      (grass_desktop_main env m).exitCode = waitExitCode env.waitOutcome p) := by
  constructor
  · intro h
    simp [grass_desktop_main, h]
  · intro p h
    cases hw : env.waitOutcome <;>
      simp [grass_desktop_main, h, hw, waitExitCode, MainOutcome.exitCode]

/-- Witness for `exit_code_follows_process`: a failed launch exits 1; an
interrupted run exits with the wait-phase code. -/
theorem exit_code_follows_process_witness :
    grass_desktop_main launchFailEnv 0 = MainOutcome.launchFailure 1 ∧
      (grass_desktop_main interruptEnv 1).exitCode =
        waitExitCode interruptEnv.waitOutcome ⟨none⟩ :=
  ⟨(exit_code_follows_process launchFailEnv 0).1 rfl,
   (exit_code_follows_process interruptEnv 1).2 ⟨none⟩ rfl⟩

/-- Claim C8: `kill_process` leaves the process non-alive, is idempotent
(the second of two consecutive calls returns its argument unchanged), and
is a no-op on an already-dead handle; being a total function it never
raises. -/
theorem terminate_idempotent (b : ProcBehavior) (p : PProc) :
    (kill_process b p).alive = false ∧
      kill_process b (kill_process b p) = kill_process b p ∧
      (p.alive = false → kill_process b p = p) := by
  obtain ⟨rc⟩ := p
  cases rc with
  | none =>
    refine ⟨?_, ?_, ?_⟩ <;> cases hg : b.gracefulWithinTimeout <;>
      simp [kill_process, PProc.alive, hg]
  | some c => simp [kill_process, PProc.alive]

/-- Witness for `terminate_idempotent` on a live and on a dead handle. -/
theorem terminate_idempotent_witness :
    (kill_process ⟨true, 0, -9⟩ ⟨none⟩).alive = false ∧
      (⟨some 0⟩ : PProc).alive = false ∧
      kill_process ⟨true, 0, -9⟩ ⟨some 0⟩ = ⟨some 0⟩ :=
  ⟨(terminate_idempotent ⟨true, 0, -9⟩ ⟨none⟩).1, by decide,
    (terminate_idempotent ⟨true, 0, -9⟩ ⟨some 0⟩).2.2 (by decide)⟩

/-- Claim C9: a key sequence without a space that is not a purely
alphanumeric string of length > 1 (e.g. a password with punctuation) is
built into an `xdotool key` command, as if it were a single named key. -/
theorem punctuated_text_sent_as_key (keySequence delayMs : String)
    (hspace : containsSpace keySequence = false)
    (halnum : ¬(keySequence.length > 1 ∧ pyIsAlnum keySequence = true)) :
    build_xdotool_cmd keySequence delayMs = ["xdotool", "key", keySequence] := by
  have h2 : (decide (keySequence.length > 1) && pyIsAlnum keySequence) = false := by
    cases hd : decide (keySequence.length > 1) with
    | false => simp
    | true =>
      cases hp : pyIsAlnum keySequence with
      | false => simp
      | true => exact absurd ⟨of_decide_eq_true hd, hp⟩ halnum
  simp [build_xdotool_cmd, hspace, h2]

/-- Witness for `punctuated_text_sent_as_key` on a punctuated password. -/
theorem punctuated_text_sent_as_key_witness :
    containsSpace "p@ss!" = false ∧
      build_xdotool_cmd "p@ss!" "125" = ["xdotool", "key", "p@ss!"] :=
  ⟨rfl, punctuated_text_sent_as_key "p@ss!" "125" rfl (by decide)⟩

/-- Claim C10: a missing xdotool executable makes the window search return
`None` — the identical value it returns when every attempt finds nothing —
so the caller cannot distinguish infrastructure unavailability from
not-found. -/
theorem search_missing_tool_indistinguishable
    (attempts₁ attempts₂ : Nat → SearchAttempt) (maxAttempts : Nat)
    (hn : 1 ≤ maxAttempts)
    (hmissing : attempts₁ 0 = SearchAttempt.fileNotFound)
    (habsent : ∀ i, attempts₂ i = SearchAttempt.calledProcessError ∨
      attempts₂ i = SearchAttempt.output []) :
    search_windows_by_name attempts₁ maxAttempts = none ∧
      search_windows_by_name attempts₂ maxAttempts = none ∧
      search_windows_by_name attempts₁ maxAttempts =
        search_windows_by_name attempts₂ maxAttempts := by
  have key : ∀ fuel i, search_attempt_loop attempts₂ i fuel = none := by
    intro fuel
    induction fuel with
    | zero => intro i; rfl
    | succ n ih =>
      intro i
      rcases habsent i with h | h <;> simp [search_attempt_loop, h, ih]
  have h1 : search_windows_by_name attempts₁ maxAttempts = none := by
    obtain ⟨k, rfl⟩ : ∃ k, maxAttempts = k + 1 := ⟨maxAttempts - 1, by omega⟩
    simp [search_windows_by_name, search_attempt_loop, hmissing]
  have h2 : search_windows_by_name attempts₂ maxAttempts = none := key maxAttempts 0
  exact ⟨h1, h2, h1.trans h2.symm⟩

/-- Witness for `search_missing_tool_indistinguishable` at concrete
oracles. -/
theorem search_missing_tool_indistinguishable_witness :
    search_windows_by_name (fun _ => SearchAttempt.fileNotFound) 3 = none ∧
      search_windows_by_name (fun _ => SearchAttempt.calledProcessError) 3 = none := by
  have h := search_missing_tool_indistinguishable (fun _ => SearchAttempt.fileNotFound)
    (fun _ => SearchAttempt.calledProcessError) 3 (by decide) rfl (fun _ => Or.inl rfl)
  exact ⟨h.1, h.2.1⟩
